import Mathlib

/-!
# Shallow embedding of the authentication token & session lifecycle manager

This file embeds, in Lean, the token/session subsystem of the
`kyc-system-backend` repository: the `AUTH_CONSTANTS` table, the
`TokenService` (session hash, revocation ledger, refresh-token records),
the `AuthController` login/refresh/revoke flows, the access-token
verification middleware, the rate-limit middleware, and the global error
handler.  Redis is modelled as explicit state: the per-user session hash
is an association list (`hSet`/`hGet`/`hDel`/`hGetAll` semantics), point
keys are `Option`-valued maps, and every write that the source pairs
with `expire` records the TTL it set.  JWTs are modelled symbolically: a
signed token carries its payload, the secret it was signed with, and its
expiry instant; verification compares secrets and the clock, as
`jsonwebtoken` does (signature first, then `exp`, with expiry at
`now >= exp`).  Clocks are `Nat`; JWT timestamps are in seconds and
`Date.now()` values in milliseconds, as in the source.
-/

namespace KycAuth

/-- `AUTH_CONSTANTS.ACCESS_TOKEN_EXPIRY` (seconds): `15 * 60`. -/
def ACCESS_TOKEN_EXPIRY : Nat := 15 * 60

/-- `AUTH_CONSTANTS.REFRESH_TOKEN_EXPIRY` (seconds): `7 * 24 * 60 * 60`. -/
def REFRESH_TOKEN_EXPIRY : Nat := 7 * 24 * 60 * 60

/-- `AUTH_CONSTANTS.MAX_SESSIONS_PER_USER` in `src/constants/auth.constants.ts`. -/
def MAX_SESSIONS_PER_USER : Nat := 50

/-- `AUTH_CONSTANTS.TOKEN_ISSUER`. -/
def TOKEN_ISSUER : String := "kyc-system"

/-- `UserRole` (the repository distinguishes admin and regular users). -/
inductive UserRole where
  | admin
  | user
deriving DecidableEq, Repr

/-- `SessionInfo` from `auth.types`: dates are epoch milliseconds. -/
structure SessionInfo where
  tokenId : String
  deviceInfo : String
  ipAddress : String
  lastUsed : Nat
  expiryTime : Nat
deriving DecidableEq, Repr

/-- `TokenPayload.type` in `auth.types`. -/
inductive TokenType where
  | access
  | refresh
deriving DecidableEq, Repr

/-- `TokenPayload` from `auth.types`. -/
structure TokenPayload where
  userId : String
  role : UserRole
  tokenId : String
  type : TokenType
deriving DecidableEq, Repr

/-- A JWT produced by `jwt.sign`, modelled symbolically: it records the
payload, the secret that signed it, the `exp` instant (seconds) and the
issuer. -/
structure SignedToken where
  payload : TokenPayload
  secret : String
  exp : Nat
  issuer : String
deriving DecidableEq, Repr

/-- `RefreshTokenData` from `auth.types`.  Its `tokenHash` field holds
`sha256(token)`; sha256 over the serialized token is modelled as the
(injective) identity on the symbolic token, so the field stores the
token itself.  No claim depends on the hash value. -/
structure RefreshTokenData where
  tokenHash : SignedToken
  deviceInfo : String
  ipAddress : String
  createdAt : Nat
  expiryTime : Nat
deriving DecidableEq, Repr

/-- The slice of Redis state the token/session subsystem touches.
`sessions u` is the hash at key `user_sessions:{u}` (field → serialized
record, as an association list); `blacklist t` is the marker at
`blacklisted_token:{t}` together with the TTL `expire` set on it;
`refreshTokens u t` is the value at `refresh_token:{u}:{t}`.  `failed`
models the store being unreachable (every client call throws). -/
structure Store where
  sessions : String → List (String × SessionInfo)
  sessionsTTL : String → Option Nat
  blacklist : String → Option Nat
  refreshTokens : String → String → Option RefreshTokenData
  refreshTTL : String → String → Option Nat
  failed : Bool

/-- The store before any operation ran. -/
def emptyStore : Store :=
  { sessions := fun _ => []
    sessionsTTL := fun _ => none
    blacklist := fun _ => none
    refreshTokens := fun _ _ => none
    refreshTTL := fun _ _ => none
    failed := false }

/-- Redis `HSET key field value`: overwrite the field if present,
otherwise append it. -/
def hSet (h : List (String × SessionInfo)) (field : String) (v : SessionInfo) :
    List (String × SessionInfo) :=
  if h.any (fun p => p.1 = field) then
    h.map (fun p => if p.1 = field then (field, v) else p)
  else
    h ++ [(field, v)]

/-- Redis `HGET key field`. -/
def hGet (h : List (String × SessionInfo)) (field : String) : Option SessionInfo :=
  (h.find? (fun p => p.1 = field)).map (fun p => p.2)

/-- Redis `HDEL key field`. -/
def hDel (h : List (String × SessionInfo)) (field : String) :
    List (String × SessionInfo) :=
  h.filter (fun p => ¬ p.1 = field)

/-- `TokenService.hashToken`: sha256 over the serialized token,
modelled as the injective identity on the symbolic token. -/
def hashToken (token : SignedToken) : SignedToken := token

/-! ## Credential encoder (`jsonwebtoken` + `TokenService.generate*`) -/

/-- `jwt.sign(payload, secret, \x7b expiresIn, issuer \x7d)` at clock `now`
(seconds). -/
def jwtSign (payload : TokenPayload) (secret : String) (expiresIn : Nat)
    (now : Nat) : SignedToken :=
  { payload := payload, secret := secret, exp := now + expiresIn,
    issuer := TOKEN_ISSUER }

/-- The two `jwt.verify` failures that matter here: `TokenExpiredError`
and `JsonWebTokenError` (bad signature / malformed). -/
inductive JwtError where
  | tokenExpired
  | invalidSignature
deriving DecidableEq, Repr

/-- `jwt.verify(token, secret)` at clock `now`: `jsonwebtoken` checks
the signature first, then fails with `TokenExpiredError` when
`now >= exp`. -/
def jwtVerify (t : SignedToken) (secret : String) (now : Nat) :
    Except JwtError TokenPayload :=
  if t.secret ≠ secret then .error .invalidSignature
  else if t.exp ≤ now then .error .tokenExpired
  else .ok t.payload

/-- `TokenService.generateAccessToken(userId, role, tokenId)` — the
caller-supplied (or freshly drawn) tokenId is a parameter here. -/
def generateAccessToken (userId : String) (role : UserRole) (tokenId : String)
    (accessSecret : String) (now : Nat) : SignedToken :=
  jwtSign { userId := userId, role := role, tokenId := tokenId,
            type := .access } accessSecret ACCESS_TOKEN_EXPIRY now

/-- `TokenService.generateRefreshToken(userId, role)` — the tokenId the
method draws with `crypto.randomBytes` is a parameter here. -/
def generateRefreshToken (userId : String) (role : UserRole) (tokenId : String)
    (refreshSecret : String) (now : Nat) : SignedToken :=
  jwtSign { userId := userId, role := role, tokenId := tokenId,
            type := .refresh } refreshSecret REFRESH_TOKEN_EXPIRY now

/-! ## TokenService store operations -/

/-- `TokenService.blacklistToken(tokenId, expiryTime)`: `SET
blacklisted_token:{tokenId} "1"` then `EXPIRE` with `expiryTime`. -/
def blacklistToken (tokenId : String) (expiryTime : Nat) (st : Store) : Store :=
  { st with blacklist := fun t =>
      if t = tokenId then some expiryTime else st.blacklist t }

/-- `TokenService.isTokenBlacklisted(tokenId)`: `GET` the marker and
coerce to boolean (happy path, store reachable). -/
def isTokenBlacklisted (tokenId : String) (st : Store) : Bool :=
  (st.blacklist tokenId).isSome

/-- `TokenService.isTokenBlacklisted` with the store client's failure
mode surfaced: a `GET` against an unreachable store throws. -/
inductive StoreFailure where
  | failure
deriving DecidableEq, Repr

/-- `isTokenBlacklisted` as the middleware awaits it: the underlying
`client.get` rejects when the store is down. -/
def isTokenBlacklistedE (tokenId : String) (st : Store) :
    Except StoreFailure Bool :=
  if st.failed then .error .failure
  else .ok (st.blacklist tokenId).isSome

/-- `TokenService.storeUserSession(userId, sessionInfo)`: `HSET
user_sessions:{userId} sessionInfo.tokenId JSON(sessionInfo)` then
`EXPIRE` the hash with `REFRESH_TOKEN_EXPIRY`. -/
def storeUserSession (userId : String) (s : SessionInfo) (st : Store) : Store :=
  { st with
    sessions := fun u =>
      if u = userId then hSet (st.sessions userId) s.tokenId s
      else st.sessions u
    sessionsTTL := fun u =>
      if u = userId then some REFRESH_TOKEN_EXPIRY else st.sessionsTTL u }

/-- `TokenService.storeRefreshToken(userId, tokenId, token, deviceInfo,
ipAddress)`: `SET refresh_token:{userId}:{tokenId}` then `EXPIRE` with
`REFRESH_TOKEN_EXPIRY`.  `nowMs` is `Date.now()`. -/
def storeRefreshToken (userId tokenId : String) (token : SignedToken)
    (deviceInfo ipAddress : String) (nowMs : Nat) (st : Store) : Store :=
  let data : RefreshTokenData :=
    { tokenHash := hashToken token, deviceInfo := deviceInfo,
      ipAddress := ipAddress, createdAt := nowMs,
      expiryTime := nowMs + REFRESH_TOKEN_EXPIRY * 1000 }
  { st with
    refreshTokens := fun u t =>
      if u = userId then (if t = tokenId then some data else st.refreshTokens u t)
      else st.refreshTokens u t
    refreshTTL := fun u t =>
      if u = userId then
        (if t = tokenId then some REFRESH_TOKEN_EXPIRY else st.refreshTTL u t)
      else st.refreshTTL u t }

/-- Outcome of `TokenService.revokeUserSession`. -/
inductive RevokeResult where
  | ok
  | notFound
deriving DecidableEq, Repr

/-- `TokenService.revokeUserSession(userId, tokenId)`: `HGET` the
session; when absent throw `NotFoundError` before touching any key;
otherwise blacklist the tokenId with `ACCESS_TOKEN_EXPIRY`, `HDEL` the
session field, and `DEL` the refresh-token key. -/
def revokeUserSession (userId tokenId : String) (st : Store) :
    RevokeResult × Store :=
  match hGet (st.sessions userId) tokenId with
  | none => (.notFound, st)
  | some _ =>
    let st1 := blacklistToken tokenId ACCESS_TOKEN_EXPIRY st
    (.ok,
      { st1 with
        sessions := fun u =>
          if u = userId then hDel (st1.sessions userId) tokenId
          else st1.sessions u
        refreshTokens := fun u t =>
          if u = userId then
            (if t = tokenId then none else st1.refreshTokens u t)
          else st1.refreshTokens u t
        refreshTTL := fun u t =>
          if u = userId then
            (if t = tokenId then none else st1.refreshTTL u t)
          else st1.refreshTTL u t })

/-- `TokenService.revokeAllUserSessions(userId)`: blacklist every field
of the session hash with `ACCESS_TOKEN_EXPIRY`, then `DEL` the hash. -/
def revokeAllUserSessions (userId : String) (st : Store) : Store :=
  let fields := (st.sessions userId).map (fun p => p.1)
  { st with
    blacklist := fun t =>
      if t ∈ fields then some ACCESS_TOKEN_EXPIRY else st.blacklist t
    sessions := fun u => if u = userId then [] else st.sessions u
    sessionsTTL := fun u => if u = userId then none else st.sessionsTTL u }

/-- `TokenService.getUserSessionCount(userId)`: `HGETALL` then count the
keys. -/
def getUserSessionCount (userId : String) (st : Store) : Nat :=
  (st.sessions userId).length

/-- The object `getUserSessions` builds for one hash entry:
`\x7b tokenId, ...session, lastUsed: new Date(...), expiryTime: new Date(...) \x7d`.
The spread of the parsed record comes after the `tokenId` shorthand, so
the record's own `tokenId` field overrides the hash field key. -/
def mkSessionEntry (field : String) (rec : SessionInfo) : SessionInfo :=
  { tokenId := rec.tokenId, deviceInfo := rec.deviceInfo,
    ipAddress := rec.ipAddress, lastUsed := rec.lastUsed,
    expiryTime := rec.expiryTime }

/-- `TokenService.getUserSessions(userId)`: `HGETALL` and map each
`(field, record)` entry through the object build above. -/
def getUserSessions (userId : String) (st : Store) : List SessionInfo :=
  (st.sessions userId).map (fun p => mkSessionEntry p.1 p.2)

/-! ## Errors and the global error handler -/

/-- An error thrown on a request path.  `appError code msg retryAfter`
is an `AppError` (the custom-error hierarchy: `UnauthorizedError` is
`appError 401 msg none`, `RateLimitError r` is
`appError 429 "Rate limit exceeded" (some r)`, `InternalServerError` is
`appError 500 msg none`, `NotFoundError` is `appError 404 msg none`).
`jwtInvalid` is a rethrown `jwt.JsonWebTokenError` and `storeFailure` a
rethrown store-client error; neither is an `AppError`. -/
inductive ThrownError where
  | appError (statusCode : Nat) (message : String) (retryAfter : Option Nat)
  | jwtInvalid
  | storeFailure
deriving DecidableEq, Repr

/-- `new UnauthorizedError(msg)`. -/
def unauthorizedError (msg : String) : ThrownError := .appError 401 msg none

/-- `new BadRequestError(msg)`. -/
def badRequestError (msg : String) : ThrownError := .appError 400 msg none

/-- `new NotFoundError(msg)`. -/
def notFoundError (msg : String) : ThrownError := .appError 404 msg none

/-- `new InternalServerError(msg)`. -/
def internalServerError (msg : String) : ThrownError := .appError 500 msg none

/-- `new RateLimitError(retryAfterSeconds)`: status 429, message
"Rate limit exceeded", errors array carrying `retryAfter`. -/
def rateLimitError (retryAfterSeconds : Nat) : ThrownError :=
  .appError 429 "Rate limit exceeded" (some retryAfterSeconds)

/-- The response body `errorHandler` sends: status code, message, and
the `retryAfter` detail when the error carried one. -/
structure HttpResponse where
  statusCode : Nat
  message : String
  retryAfter : Option Nat
deriving DecidableEq, Repr

/-- `errorHandler` in `error-handler.middleware.ts`: an `AppError`
keeps its own `statusCode`, `message` and `errors`; anything else falls
through to the defaults `500` / "Internal Server Error" (the Mongo and
validation branches do not apply to auth-path errors). -/
def errorHandler (e : ThrownError) : HttpResponse :=
  match e with
  | .appError code msg retryAfter =>
    { statusCode := code, message := msg, retryAfter := retryAfter }
  | _ => { statusCode := 500, message := "Internal Server Error",
           retryAfter := none }

/-! ## Access-token verification middleware -/

/-- Outcome of `AuthMiddleware.verifyAccessToken`: either `req.user` is
set and `next()` runs the protected handler, or an error is thrown. -/
inductive AuthResult where
  | success (userId : String) (role : UserRole) (tokenId : String)
  | rejected (e : ThrownError)
deriving DecidableEq, Repr

/-- `AuthMiddleware.verifyAccessToken`: read the `access_token` cookie;
`jwt.verify` against `JWT_ACCESS_SECRET`; reject non-access payloads;
check the blacklist; set `req.user` and call `next()`.  The catch block
maps `TokenExpiredError` to `UnauthorizedError("Access token expired")`
and rethrows everything else unchanged (so a bad signature surfaces as
the non-`AppError` `jwtInvalid`, a store outage as `storeFailure`, and
the deliberately thrown `UnauthorizedError`s as themselves). -/
def verifyAccessToken (cookie : Option SignedToken) (accessSecret : String)
    (now : Nat) (st : Store) : AuthResult :=
  match cookie with
  | none => .rejected (unauthorizedError "Access token not found")
  | some token =>
    match jwtVerify token accessSecret now with
    | .error .tokenExpired => .rejected (unauthorizedError "Access token expired")
    | .error .invalidSignature => .rejected .jwtInvalid
    | .ok decoded =>
      if decoded.type ≠ .access then
        .rejected (unauthorizedError "Invalid token type")
      else
        match isTokenBlacklistedE decoded.tokenId st with
        | .error _ => .rejected .storeFailure
        | .ok true => .rejected (unauthorizedError "Token has been invalidated")
        | .ok false => .success decoded.userId decoded.role decoded.tokenId

/-! ## AuthController: login and refresh (rotation) -/

/-- Outcome of the token/session part of `AuthController.login`. -/
inductive LoginResult where
  | ok (accessToken refreshToken : SignedToken)
  | maxSessionsReached
deriving DecidableEq, Repr

/-- The session-registration part of `AuthController.login` (the
credential checks on the user record having passed).  `maxSessions` is
the configured `AUTH_CONSTANTS.MAX_SESSIONS_PER_USER`; `tokenId` is the
controller's `randomBytes` draw and `refreshTokenId` the draw inside
`generateRefreshToken`.  Rejects with `BadRequestError("Maximum
sessions reached")` when `sessionCount >= maxSessions`; otherwise mints
both tokens, stores the refresh-token record and the session. -/
def login (maxSessions : Nat) (userId : String) (role : UserRole)
    (tokenId refreshTokenId deviceInfo ipAddress : String) (now : Nat)
    (accessSecret refreshSecret : String) (st : Store) : LoginResult × Store :=
  if maxSessions ≤ getUserSessionCount userId st then
    (.maxSessionsReached, st)
  else
    let accessToken := generateAccessToken userId role tokenId accessSecret now
    let refreshToken :=
      generateRefreshToken userId role refreshTokenId refreshSecret now
    let sessionInfo : SessionInfo :=
      { tokenId := tokenId, deviceInfo := deviceInfo, ipAddress := ipAddress,
        lastUsed := now * 1000,
        expiryTime := now * 1000 + REFRESH_TOKEN_EXPIRY * 1000 }
    let st1 := storeRefreshToken userId tokenId refreshToken deviceInfo
      ipAddress (now * 1000) st
    let st2 := storeUserSession userId sessionInfo st1
    (.ok accessToken refreshToken, st2)

/-- `AuthController.refresh` (rotation), after `verifyRefreshToken` has
set `req.user` and the user lookup succeeded: draw `newTokenId`, mint a
new access token carrying it and a new refresh token (whose internal id
is `refreshTokenId`), blacklist `oldTokenId` with
`REFRESH_TOKEN_EXPIRY`, store the new refresh-token record, and store a
session keyed by `newTokenId`.  No session entry is removed. -/
def refresh (userId : String) (role : UserRole)
    (oldTokenId newTokenId refreshTokenId deviceInfo ipAddress : String)
    (now : Nat) (accessSecret refreshSecret : String) (st : Store) :
    (SignedToken × SignedToken) × Store :=
  let accessToken := generateAccessToken userId role newTokenId accessSecret now
  let refreshToken :=
    generateRefreshToken userId role refreshTokenId refreshSecret now
  let st1 := blacklistToken oldTokenId REFRESH_TOKEN_EXPIRY st
  let sessionInfo : SessionInfo :=
    { tokenId := newTokenId, deviceInfo := deviceInfo, ipAddress := ipAddress,
      lastUsed := now * 1000,
      expiryTime := now * 1000 + REFRESH_TOKEN_EXPIRY * 1000 }
  let st2 := storeRefreshToken userId newTokenId refreshToken deviceInfo
    ipAddress (now * 1000) st1
  let st3 := storeUserSession userId sessionInfo st2
  ((accessToken, refreshToken), st3)

/-! ## Rate-limit middleware -/

/-- The rate-limiter's slice of Redis: integer counters (`INCR`; an
absent key counts as 0) and their TTLs, plus the outage flag. -/
structure RlStore where
  counters : String → Nat
  ttl : String → Option Nat
  failed : Bool

/-- A rate-limit store with no counters. -/
def emptyRlStore : RlStore :=
  { counters := fun _ => 0, ttl := fun _ => none, failed := false }

/-- Outcome of one pass through the rate-limit middleware: `next`
(handler reached, with the `X-RateLimit-Remaining` value that was set)
or a thrown error. -/
inductive RlOutcome where
  | next (remaining : Int)
  | thrown (e : ThrownError)
deriving DecidableEq, Repr

/-- The `try` block of `RateLimiterMiddleware.createRateLimiter`: `INCR`
the key and `EXPIRE` it to `windowMs/1000`; compute
`remaining = Math.max(0, max - requests)` and
`retryAfterSeconds = Math.floor(windowMs/1000)`; when
`requests > config.max` throw `RateLimitError(retryAfterSeconds)`,
otherwise call `next()`.  A store outage makes the `INCR` itself
throw. -/
def rateLimiterTry (windowMs maxReqs : Nat) (key : String) (st : RlStore) :
    RlOutcome × RlStore :=
  if st.failed then (.thrown .storeFailure, st)
  else
    let requests := st.counters key + 1
    let st1 : RlStore :=
      { st with
        counters := fun k => if k = key then requests else st.counters k
        ttl := fun k => if k = key then some (windowMs / 1000) else st.ttl k }
    let remaining : Int := max 0 ((maxReqs : Int) - (requests : Int))
    let retryAfterSeconds := windowMs / 1000
    if maxReqs < requests then
      (.thrown (rateLimitError retryAfterSeconds), st1)
    else
      (.next remaining, st1)

/-- `RateLimiterMiddleware.createRateLimiter`: the `catch` block wraps
every error raised in the `try` block — including the limiter's own
`RateLimitError` — in
`InternalServerError("Rate limiting system error")`. -/
def createRateLimiter (windowMs maxReqs : Nat) (key : String) (st : RlStore) :
    RlOutcome × RlStore :=
  match rateLimiterTry windowMs maxReqs key st with
  | (.thrown _, st') =>
    (.thrown (internalServerError "Rate limiting system error"), st')
  | ok => ok

/-- `n` sequential calls of the limiter on one key (the outcome of the
last call, with the state threaded through). -/
def rateLimiterCalls (windowMs maxReqs : Nat) (key : String) :
    Nat → RlStore → RlOutcome × RlStore
  | 0, st => (.next 0, st)
  | n + 1, st =>
    let (_, st') := rateLimiterCalls windowMs maxReqs key n st
    createRateLimiter windowMs maxReqs key st'

/-! ## Reachability invariant and hash lemmas -/

/-- Every entry of a user's session hash is stored under its own
`tokenId` — true of every state the repository's writers produce, since
`storeUserSession` uses `sessionInfo.tokenId` as the hash field. -/
def hashConsistent (userId : String) (st : Store) : Prop :=
  ∀ p ∈ st.sessions userId, p.2.tokenId = p.1

theorem mkSessionEntry_eq (f : String) (rec : SessionInfo) :
    mkSessionEntry f rec = rec := rfl

theorem mem_hSet_self (h : List (String × SessionInfo)) (f : String)
    (v : SessionInfo) : (f, v) ∈ hSet h f v := by
  unfold hSet
  split
  · rename_i hany
    rw [List.any_eq_true] at hany
    obtain ⟨p, hp, hpf⟩ := hany
    rw [decide_eq_true_eq] at hpf
    refine List.mem_map.mpr ⟨p, hp, ?_⟩
    simp [hpf]
  · exact List.mem_append.mpr (Or.inr (List.mem_singleton.mpr rfl))

theorem mem_hSet_cases {h : List (String × SessionInfo)} {f : String}
    {v : SessionInfo} {p : String × SessionInfo} (hp : p ∈ hSet h f v) :
    p = (f, v) ∨ (p ∈ h ∧ p.1 ≠ f) := by
  unfold hSet at hp
  split at hp
  · obtain ⟨q, hq, hmap⟩ := List.mem_map.mp hp
    by_cases hqf : q.1 = f
    · left
      rw [if_pos hqf] at hmap
      exact hmap.symm
    · right
      rw [if_neg hqf] at hmap
      exact hmap ▸ ⟨hq, hqf⟩
  · rename_i hany
    rcases List.mem_append.mp hp with hmem | hone
    · right
      refine ⟨hmem, fun hf => hany ?_⟩
      rw [List.any_eq_true]
      exact ⟨p, hmem, decide_eq_true hf⟩
    · left
      exact List.mem_singleton.mp hone

theorem mem_hSet_of_mem {h : List (String × SessionInfo)} {f : String}
    {v : SessionInfo} {p : String × SessionInfo} (hp : p ∈ h) (hne : p.1 ≠ f) :
    p ∈ hSet h f v := by
  unfold hSet
  split
  · refine List.mem_map.mpr ⟨p, hp, ?_⟩
    rw [if_neg hne]
  · exact List.mem_append.mpr (Or.inl hp)

theorem mem_hDel {h : List (String × SessionInfo)} {f : String}
    {p : String × SessionInfo} : p ∈ hDel h f ↔ p ∈ h ∧ p.1 ≠ f := by
  unfold hDel
  rw [List.mem_filter]
  simp

theorem hGet_hDel (h : List (String × SessionInfo)) (f : String) :
    hGet (hDel h f) f = none := by
  unfold hGet
  rw [List.find?_eq_none.mpr]
  · rfl
  · intro x hx
    have := (mem_hDel.mp hx).2
    simpa using this

theorem jwtVerify_ok_payload {t : SignedToken} {s : String} {n : Nat}
    {d : TokenPayload} (h : jwtVerify t s n = .ok d) : d = t.payload := by
  unfold jwtVerify at h
  split at h
  · exact Except.noConfusion h
  · split at h
    · exact Except.noConfusion h
    · injection h with h
      exact h.symm

theorem refresh_blacklist (userId : String) (role : UserRole)
    (oldTokenId newTokenId refreshTokenId deviceInfo ipAddress : String)
    (now : Nat) (accessSecret refreshSecret : String) (st : Store)
    (tid : String) :
    (refresh userId role oldTokenId newTokenId refreshTokenId deviceInfo
      ipAddress now accessSecret refreshSecret st).2.blacklist tid
    = if tid = oldTokenId then some REFRESH_TOKEN_EXPIRY
      else st.blacklist tid := rfl

theorem refresh_failed (userId : String) (role : UserRole)
    (oldTokenId newTokenId refreshTokenId deviceInfo ipAddress : String)
    (now : Nat) (accessSecret refreshSecret : String) (st : Store) :
    (refresh userId role oldTokenId newTokenId refreshTokenId deviceInfo
      ipAddress now accessSecret refreshSecret st).2.failed = st.failed := rfl

theorem revoke_sessions_eq {userId tokenId : String} {st : Store}
    {s : SessionInfo} (hget : hGet (st.sessions userId) tokenId = some s) :
    (revokeUserSession userId tokenId st).2.sessions userId
    = hDel (st.sessions userId) tokenId := by
  simp [revokeUserSession, hget, blacklistToken]

theorem revoke_of_hGet_none {userId tokenId : String} {st : Store}
    (h : hGet (st.sessions userId) tokenId = none) :
    revokeUserSession userId tokenId st = (.notFound, st) := by
  unfold revokeUserSession
  rw [h]

/-! ## Claim theorems -/

/-- C6: verifying an access token issued by `generateAccessToken` with
the correct access secret before its expiry returns exactly the issued
claims; verifying under a different secret fails with `Invalid`
(`JsonWebTokenError`), and verifying at or after expiry fails with
`Expired` (`TokenExpiredError`) — in neither case does verification
succeed. -/
theorem C6_access_token_round_trip (userId : String) (role : UserRole)
    (tokenId secret otherSecret : String) (now otherNow : Nat) :
    (otherNow < now + ACCESS_TOKEN_EXPIRY →
      jwtVerify (generateAccessToken userId role tokenId secret now) secret
        otherNow
      = .ok { userId := userId, role := role, tokenId := tokenId,
              type := .access })
    ∧ (otherSecret ≠ secret →
      jwtVerify (generateAccessToken userId role tokenId secret now)
        otherSecret otherNow
      = .error .invalidSignature)
    ∧ (now + ACCESS_TOKEN_EXPIRY ≤ otherNow →
      jwtVerify (generateAccessToken userId role tokenId secret now) secret
        otherNow
      = .error .tokenExpired) := by
  refine ⟨fun hlt => ?_, fun hne => ?_, fun hle => ?_⟩
  · simp [generateAccessToken, jwtSign, jwtVerify, Nat.not_le.mpr hlt]
  · simp [generateAccessToken, jwtSign, jwtVerify, Ne.symm hne]
  · simp [generateAccessToken, jwtSign, jwtVerify, hle]

/-- C6 witness: a concrete issuance round-trips at clock 10, fails with
`invalidSignature` under the wrong secret, and fails with
`tokenExpired` at clock 900. -/
theorem C6_access_token_round_trip_witness :
    jwtVerify (generateAccessToken "u" .user "t" "s" 0) "s" 10
      = .ok { userId := "u", role := .user, tokenId := "t", type := .access }
    ∧ jwtVerify (generateAccessToken "u" .user "t" "s" 0) "x" 10
      = .error .invalidSignature
    ∧ jwtVerify (generateAccessToken "u" .user "t" "s" 0) "s" 900
      = .error .tokenExpired := by
  have h := C6_access_token_round_trip "u" .user "t" "s" "x" 0 10
  have h900 := C6_access_token_round_trip "u" .user "t" "s" "x" 0 900
  exact ⟨h.1 (by decide), h.2.1 (by decide), h900.2.2 (by decide)⟩

/-- C2: with `windowMs = 1000` and `max = 5` on a fresh key, calls 1–5
reach the handler with `remaining` 4, 3, 2, 1, 0.  On call 6 the `try`
block does construct `RateLimitError(retryAfterSeconds = 1)`, but the
middleware's own `catch` wraps it, so the outcome actually delivered is
`InternalServerError("Rate limiting system error")`, a different error
kind than `RateLimitExceeded`. -/
theorem C2_gate_six_sequential_calls :
    (rateLimiterCalls 1000 5 "k" 1 emptyRlStore).1 = .next 4
    ∧ (rateLimiterCalls 1000 5 "k" 2 emptyRlStore).1 = .next 3
    ∧ (rateLimiterCalls 1000 5 "k" 3 emptyRlStore).1 = .next 2
    ∧ (rateLimiterCalls 1000 5 "k" 4 emptyRlStore).1 = .next 1
    ∧ (rateLimiterCalls 1000 5 "k" 5 emptyRlStore).1 = .next 0
    ∧ (rateLimiterTry 1000 5 "k"
        (rateLimiterCalls 1000 5 "k" 5 emptyRlStore).2).1
      = .thrown (rateLimitError 1)
    ∧ (rateLimiterCalls 1000 5 "k" 6 emptyRlStore).1
      = .thrown (internalServerError "Rate limiting system error")
    ∧ internalServerError "Rate limiting system error" ≠ rateLimitError 1 := by
  decide

/-- C9 counterexample: an expired access token and a revoked access
token are rejected with distinct `UnauthorizedError` messages, and the
boundary `errorHandler` maps them to distinct responses — the claim
that the delivered responses are identical is false at these inputs. -/
theorem C9_counterexample :
    verifyAccessToken (some (generateAccessToken "u" .user "tx" "s" 0)) "s"
      2000 (blacklistToken "tb" ACCESS_TOKEN_EXPIRY emptyStore)
      = .rejected (unauthorizedError "Access token expired")
    ∧ verifyAccessToken (some (generateAccessToken "u" .user "tb" "s" 0)) "s"
      500 (blacklistToken "tb" ACCESS_TOKEN_EXPIRY emptyStore)
      = .rejected (unauthorizedError "Token has been invalidated")
    ∧ errorHandler (unauthorizedError "Access token expired")
      ≠ errorHandler (unauthorizedError "Token has been invalidated") := by
  decide

/-- C9 amended: expired and revoked rejections both carry HTTP status
401 but the `errorHandler` passes each `AppError`'s own message through
to the client, so the response bodies differ by subkind; a forged
token's `JsonWebTokenError` is not an `AppError` and maps to the 500
default — responses are distinguishable, not identical. -/
theorem C9_distinct_subkind_responses :
    (errorHandler (unauthorizedError "Access token expired")).statusCode = 401
    ∧ (errorHandler
        (unauthorizedError "Token has been invalidated")).statusCode = 401
    ∧ (errorHandler (unauthorizedError "Access token expired")).message
      ≠ (errorHandler (unauthorizedError "Token has been invalidated")).message
    ∧ errorHandler .jwtInvalid
      = { statusCode := 500, message := "Internal Server Error",
          retryAfter := none } := by
  decide

/-- C1 counterexample: revoking the session stored by a concrete login
succeeds, and the revocation marker it writes has TTL
`ACCESS_TOKEN_EXPIRY` (900 s) — not `REFRESH_TOKEN_EXPIRY` (604800 s)
as the claim states. -/
theorem C1_counterexample :
    (revokeUserSession "u" "t1"
        (login 50 "u" .user "t1" "r1" "d" "ip" 0 "s1" "s2" emptyStore).2).1
      = .ok
    ∧ (revokeUserSession "u" "t1"
        (login 50 "u" .user "t1" "r1" "d" "ip" 0 "s1" "s2" emptyStore).2).2.blacklist
        "t1"
      = some ACCESS_TOKEN_EXPIRY
    ∧ ACCESS_TOKEN_EXPIRY ≠ REFRESH_TOKEN_EXPIRY := by
  refine ⟨by decide, by decide, by decide⟩

/-- C1 amended: every successful `revokeUserSession(userId, tokenId)`
and every `revokeAllUserSessions(userId)` writes its revocation markers
with TTL `ACCESS_TOKEN_EXPIRY`, the access-token lifetime — a shorter
value than `REFRESH_TOKEN_EXPIRY`; only the rotation path
(`AuthController.refresh`) blacklists with `REFRESH_TOKEN_EXPIRY`. -/
theorem C1_revocation_marker_ttl (userId tokenId : String) (st : Store) :
    ((revokeUserSession userId tokenId st).1 = .ok →
      (revokeUserSession userId tokenId st).2.blacklist tokenId
        = some ACCESS_TOKEN_EXPIRY)
    ∧ (∀ t ∈ (st.sessions userId).map (fun p => p.1),
      (revokeAllUserSessions userId st).blacklist t
        = some ACCESS_TOKEN_EXPIRY) := by
  constructor
  · intro hok
    cases hget : hGet (st.sessions userId) tokenId with
    | none => simp [revokeUserSession, hget] at hok
    | some s => simp [revokeUserSession, hget, blacklistToken]
  · intro t ht
    simp only [revokeAllUserSessions]
    rw [if_pos ht]

/-- C1 witness: the amended statement at the concrete state produced by
one login — the marker written by `revokeUserSession` and the marker
written by `revokeAllUserSessions` both have TTL
`ACCESS_TOKEN_EXPIRY`. -/
theorem C1_revocation_marker_ttl_witness :
    (revokeUserSession "u" "t1"
        (login 50 "u" .user "t1" "r1" "d" "ip" 0 "s1" "s2" emptyStore).2).2.blacklist
        "t1"
      = some ACCESS_TOKEN_EXPIRY
    ∧ (revokeAllUserSessions "u"
        (login 50 "u" .user "t1" "r1" "d" "ip" 0 "s1" "s2" emptyStore).2).blacklist
        "t1"
      = some ACCESS_TOKEN_EXPIRY := by
  have h := C1_revocation_marker_ttl "u" "t1"
    (login 50 "u" .user "t1" "r1" "d" "ip" 0 "s1" "s2" emptyStore).2
  exact ⟨h.1 (by decide), h.2 "t1" (by decide)⟩

/-- C4 counterexample: from the empty store, log in with session
tokenId `t1` (and refresh lineage `t1`), then rotate `t1` to `t2`.  The
rotation blacklists `t1`, yet `t1` still appears among the tokenIds of
`getUserSessions` — the superseded session entry is never removed, so
the claimed registry invariant is false at this reachable state. -/
theorem C4_counterexample :
    ((refresh "u" .user "t1" "t2" "r2" "d" "ip" 5 "s1" "s2"
        (login 50 "u" .user "t1" "t1" "d" "ip" 0 "s1" "s2" emptyStore).2).2.blacklist
        "t1"
      = some REFRESH_TOKEN_EXPIRY)
    ∧ "t1" ∈ (getUserSessions "u"
        (refresh "u" .user "t1" "t2" "r2" "d" "ip" 5 "s1" "s2"
          (login 50 "u" .user "t1" "t1" "d" "ip" 0 "s1" "s2"
            emptyStore).2).2).map (fun s => s.tokenId) := by
  refine ⟨by decide, by decide⟩

/-- C4 amended: a successful rotation blacklists `oldTokenId` (with
`REFRESH_TOKEN_EXPIRY`) and registers a session under the new tokenId,
but removes nothing from the session registry: every previously stored
entry whose field is not the new tokenId is still present afterwards.
`oldTokenId` therefore remains among `listSessions(userId)` whenever it
was registered before the rotation; registry entries disappear only via
`revokeUserSession`, `revokeAllUserSessions`, or store TTL expiry. -/
theorem C4_rotation_keeps_superseded_sessions (userId : String)
    (role : UserRole)
    (oldTokenId newTokenId refreshTokenId deviceInfo ipAddress : String)
    (now : Nat) (accessSecret refreshSecret : String) (st : Store) :
    ((refresh userId role oldTokenId newTokenId refreshTokenId deviceInfo
        ipAddress now accessSecret refreshSecret st).2.blacklist oldTokenId
      = some REFRESH_TOKEN_EXPIRY)
    ∧ (∃ s ∈ getUserSessions userId
        (refresh userId role oldTokenId newTokenId refreshTokenId deviceInfo
          ipAddress now accessSecret refreshSecret st).2,
        s.tokenId = newTokenId)
    ∧ (∀ p ∈ st.sessions userId, p.1 ≠ newTokenId →
      p ∈ (refresh userId role oldTokenId newTokenId refreshTokenId deviceInfo
        ipAddress now accessSecret refreshSecret st).2.sessions userId) := by
  refine ⟨?_, ?_, ?_⟩
  · simp [refresh, storeUserSession, storeRefreshToken, blacklistToken]
  · refine ⟨mkSessionEntry newTokenId
      { tokenId := newTokenId, deviceInfo := deviceInfo,
        ipAddress := ipAddress, lastUsed := now * 1000,
        expiryTime := now * 1000 + REFRESH_TOKEN_EXPIRY * 1000 }, ?_, rfl⟩
    refine List.mem_map.mpr ⟨(newTokenId, _), ?_, rfl⟩
    simp only [refresh, storeUserSession, storeRefreshToken, blacklistToken,
      if_pos rfl]
    exact mem_hSet_self _ _ _
  · intro p hp hne
    simp only [refresh, storeUserSession, storeRefreshToken, blacklistToken,
      if_pos rfl]
    exact mem_hSet_of_mem hp hne

/-- C4 witness: the amended statement at a concrete rotation — the old
id is blacklisted for the refresh lifetime, the new session is listed,
and the pre-existing `t1` entry survives the rotation. -/
theorem C4_rotation_keeps_superseded_sessions_witness :
    ((refresh "u" .user "t1" "t2" "r2" "d" "ip" 5 "s1" "s2"
        (login 50 "u" .user "t1" "t1" "d" "ip" 0 "s1" "s2"
          emptyStore).2).2.blacklist "t1"
      = some REFRESH_TOKEN_EXPIRY)
    ∧ (∃ s ∈ getUserSessions "u"
        (refresh "u" .user "t1" "t2" "r2" "d" "ip" 5 "s1" "s2"
          (login 50 "u" .user "t1" "t1" "d" "ip" 0 "s1" "s2" emptyStore).2).2,
        s.tokenId = "t2")
    ∧ ("t1",
        { tokenId := "t1", deviceInfo := "d", ipAddress := "ip",
          lastUsed := 0,
          expiryTime := REFRESH_TOKEN_EXPIRY * 1000 : SessionInfo })
      ∈ (refresh "u" .user "t1" "t2" "r2" "d" "ip" 5 "s1" "s2"
        (login 50 "u" .user "t1" "t1" "d" "ip" 0 "s1" "s2"
          emptyStore).2).2.sessions "u" := by
  have h := C4_rotation_keeps_superseded_sessions "u" .user "t1" "t2" "r2" "d"
    "ip" 5 "s1" "s2"
    (login 50 "u" .user "t1" "t1" "d" "ip" 0 "s1" "s2" emptyStore).2
  exact ⟨h.1, h.2.1, h.2.2 _ (by decide) (by decide)⟩

/-- C7: the session-registration part of login rejects with "Maximum
sessions reached" exactly when the user's current session count is at
least the configured maximum; and with the cap set to 3, three
sequential registrations for a fresh user succeed while the fourth is
rejected. -/
theorem C7_session_capacity (maxSessions : Nat) (userId : String)
    (role : UserRole) (tokenId refreshTokenId deviceInfo ipAddress : String)
    (now : Nat) (accessSecret refreshSecret : String) (st : Store) :
    ((login maxSessions userId role tokenId refreshTokenId deviceInfo
        ipAddress now accessSecret refreshSecret st).1 = .maxSessionsReached
      ↔ maxSessions ≤ getUserSessionCount userId st)
    ∧ (login 3 "u" .user "t1" "r1" "d" "ip" 0 "s1" "s2" emptyStore).1
        ≠ .maxSessionsReached
    ∧ (login 3 "u" .user "t2" "r2" "d" "ip" 0 "s1" "s2"
        (login 3 "u" .user "t1" "r1" "d" "ip" 0 "s1" "s2" emptyStore).2).1
        ≠ .maxSessionsReached
    ∧ (login 3 "u" .user "t3" "r3" "d" "ip" 0 "s1" "s2"
        (login 3 "u" .user "t2" "r2" "d" "ip" 0 "s1" "s2"
          (login 3 "u" .user "t1" "r1" "d" "ip" 0 "s1" "s2"
            emptyStore).2).2).1
        ≠ .maxSessionsReached
    ∧ (login 3 "u" .user "t4" "r4" "d" "ip" 0 "s1" "s2"
        (login 3 "u" .user "t3" "r3" "d" "ip" 0 "s1" "s2"
          (login 3 "u" .user "t2" "r2" "d" "ip" 0 "s1" "s2"
            (login 3 "u" .user "t1" "r1" "d" "ip" 0 "s1" "s2"
              emptyStore).2).2).2).1
        = .maxSessionsReached := by
  refine ⟨?_, by decide, by decide, by decide, by decide⟩
  constructor
  · intro h
    unfold login at h
    by_contra hlt
    rw [if_neg hlt] at h
    exact LoginResult.noConfusion h
  · intro h
    unfold login
    rw [if_pos h]

/-- C5: after a successful `revokeUserSession(userId, tokenId)` in a
hash-consistent state, the session list no longer contains the tokenId,
the tokenId is blacklisted, and a second revoke of the same tokenId
returns NotFound with the state literally unchanged — the `HGET` miss
throws before any key is written or deleted. -/
theorem C5_revoke_idempotent (userId tokenId : String) (st : Store)
    (hc : hashConsistent userId st)
    (hok : (revokeUserSession userId tokenId st).1 = .ok) :
    tokenId ∉ (getUserSessions userId
        (revokeUserSession userId tokenId st).2).map (fun s => s.tokenId)
    ∧ isTokenBlacklisted tokenId (revokeUserSession userId tokenId st).2 = true
    ∧ revokeUserSession userId tokenId (revokeUserSession userId tokenId st).2
      = (.notFound, (revokeUserSession userId tokenId st).2) := by
  cases hget : hGet (st.sessions userId) tokenId with
  | none => simp [revokeUserSession, hget] at hok
  | some s =>
    have hsess := revoke_sessions_eq hget
    refine ⟨?_, ?_, ?_⟩
    · intro hmem
      rw [getUserSessions, hsess] at hmem
      rw [List.map_map, List.mem_map] at hmem
      obtain ⟨p, hp, hpt⟩ := hmem
      obtain ⟨hpmem, hpne⟩ := mem_hDel.mp hp
      exact hpne ((hc p hpmem) ▸ hpt)
    · simp [isTokenBlacklisted, revokeUserSession, hget, blacklistToken]
    · refine revoke_of_hGet_none ?_
      rw [hsess]
      exact hGet_hDel _ _

/-- C5 witness: the theorem applied to the state produced by one
concrete login — the revoke succeeds, the list drops `t1`, the marker
is set, and the second revoke is a NotFound no-op. -/
theorem C5_revoke_idempotent_witness :
    "t1" ∉ (getUserSessions "u"
        (revokeUserSession "u" "t1"
          (login 50 "u" .user "t1" "r1" "d" "ip" 0 "s1" "s2"
            emptyStore).2).2).map (fun s => s.tokenId)
    ∧ isTokenBlacklisted "t1"
        (revokeUserSession "u" "t1"
          (login 50 "u" .user "t1" "r1" "d" "ip" 0 "s1" "s2"
            emptyStore).2).2 = true
    ∧ revokeUserSession "u" "t1"
        (revokeUserSession "u" "t1"
          (login 50 "u" .user "t1" "r1" "d" "ip" 0 "s1" "s2"
            emptyStore).2).2
      = (.notFound,
        (revokeUserSession "u" "t1"
          (login 50 "u" .user "t1" "r1" "d" "ip" 0 "s1" "s2"
            emptyStore).2).2) := by
  refine C5_revoke_idempotent "u" "t1"
    (login 50 "u" .user "t1" "r1" "d" "ip" 0 "s1" "s2" emptyStore).2
    ?_ (by decide)
  intro p hp
  simp [login, emptyStore, storeUserSession, storeRefreshToken, hSet,
    getUserSessionCount] at hp
  simp [hp]

/-- C8: when the store is unreachable, access-token verification never
succeeds — either the token already fails the JWT checks, or the
blacklist lookup's rejected promise propagates out of the middleware
(rethrown by the catch block), so the protected handler is never
reached.  In particular a token that passes every JWT check is rejected
with the rethrown store error; a store failure never lets a token
through. -/
theorem C8_store_failure_fails_closed (cookie : Option SignedToken)
    (accessSecret : String) (now : Nat) (st : Store)
    (hfail : st.failed = true) :
    (∀ (u : String) (r : UserRole) (t : String),
      verifyAccessToken cookie accessSecret now st ≠ .success u r t)
    ∧ (∀ tok : SignedToken, cookie = some tok → tok.secret = accessSecret →
      now < tok.exp → tok.payload.type = .access →
      verifyAccessToken cookie accessSecret now st
        = .rejected .storeFailure) := by
  constructor
  · intro u r t hsucc
    cases cookie with
    | none => simp [verifyAccessToken] at hsucc
    | some tok =>
      cases hv : jwtVerify tok accessSecret now with
      | error e => cases e <;> simp [verifyAccessToken, hv] at hsucc
      | ok decoded =>
        by_cases htype : decoded.type = TokenType.access
        · simp [verifyAccessToken, hv, htype, isTokenBlacklistedE, hfail]
            at hsucc
        · simp [verifyAccessToken, hv, htype] at hsucc
  · intro tok hcookie hsecret hexp htype
    subst hcookie
    have hv : jwtVerify tok accessSecret now = .ok tok.payload := by
      unfold jwtVerify
      rw [if_neg (by simp [hsecret]), if_neg (Nat.not_le.mpr hexp)]
    simp [verifyAccessToken, hv, htype, isTokenBlacklistedE, hfail]

/-- C8 witness: with the store down, a structurally valid unexpired
access token is rejected with the store error and is in particular not
authorized. -/
theorem C8_store_failure_fails_closed_witness :
    verifyAccessToken (some (generateAccessToken "u" .user "t" "s" 0)) "s" 10
        { emptyStore with failed := true }
      ≠ .success "u" .user "t"
    ∧ verifyAccessToken (some (generateAccessToken "u" .user "t" "s" 0)) "s"
        10 { emptyStore with failed := true }
      = .rejected .storeFailure := by
  have h := C8_store_failure_fails_closed
    (some (generateAccessToken "u" .user "t" "s" 0)) "s" 10
    { emptyStore with failed := true } rfl
  exact ⟨h.1 "u" .user "t",
    h.2 (generateAccessToken "u" .user "t" "s" 0) rfl rfl (by decide) rfl⟩

/-- C10: session records round-trip through the registry.  In a
hash-consistent state, after `storeUserSession(userId, s)` the list
returned by `getUserSessions(userId)` contains an entry equal to `s`
(same tokenId, deviceInfo, ipAddress, lastUsed, expiryTime), the state
stays hash-consistent, and the tokenId of every entry the read path
builds equals the hash field it is stored under. -/
theorem C10_session_round_trip (userId : String) (s : SessionInfo)
    (st : Store) (hc : hashConsistent userId st) :
    s ∈ getUserSessions userId (storeUserSession userId s st)
    ∧ hashConsistent userId (storeUserSession userId s st)
    ∧ (∀ p ∈ (storeUserSession userId s st).sessions userId,
      (mkSessionEntry p.1 p.2).tokenId = p.1) := by
  have hsess : (storeUserSession userId s st).sessions userId
      = hSet (st.sessions userId) s.tokenId s := by
    simp [storeUserSession]
  have hcons : hashConsistent userId (storeUserSession userId s st) := by
    intro p hp
    rw [hsess] at hp
    rcases mem_hSet_cases hp with hnew | ⟨hold, _⟩
    · rw [hnew]
    · exact hc p hold
  refine ⟨?_, hcons, ?_⟩
  · rw [getUserSessions, hsess]
    refine List.mem_map.mpr ⟨(s.tokenId, s), mem_hSet_self _ _ _, ?_⟩
    exact mkSessionEntry_eq _ _
  · intro p hp
    rw [mkSessionEntry_eq]
    exact hcons p hp

/-- C10 witness: one concrete store followed by a read returns the
stored record, and its tokenId matches its hash field. -/
theorem C10_session_round_trip_witness :
    ({ tokenId := "t1", deviceInfo := "d", ipAddress := "ip", lastUsed := 7,
        expiryTime := 9 : SessionInfo })
      ∈ getUserSessions "u"
        (storeUserSession "u"
          { tokenId := "t1", deviceInfo := "d", ipAddress := "ip",
            lastUsed := 7, expiryTime := 9 } emptyStore)
    ∧ ∀ p ∈ (storeUserSession "u"
        { tokenId := "t1", deviceInfo := "d", ipAddress := "ip",
          lastUsed := 7, expiryTime := 9 } emptyStore).sessions "u",
      (mkSessionEntry p.1 p.2).tokenId = p.1 := by
  have h := C10_session_round_trip "u"
    { tokenId := "t1", deviceInfo := "d", ipAddress := "ip", lastUsed := 7,
      expiryTime := 9 } emptyStore (by intro p hp; simp [emptyStore] at hp)
  exact ⟨h.1, h.2.2⟩

/-- C3: after a completed rotation, no access token carrying
`oldTokenId` authorizes (the blacklist check rejects any such token
that gets that far, and every earlier check also rejects); a token
carrying `oldTokenId` that passes every JWT check is rejected exactly
with the Revoked outcome ("Token has been invalidated"); and the access
token the rotation itself issued authorizes successfully, yielding the
issued `\x7buserId, role, tokenId\x7d` — provided the fresh tokenId was not
already blacklisted and the token is presented before its expiry. -/
theorem C3_rotation_revokes_old_authorizes_new (userId : String)
    (role : UserRole)
    (oldTokenId newTokenId refreshTokenId deviceInfo ipAddress : String)
    (now verifyNow : Nat) (accessSecret refreshSecret : String) (st : Store) :
    (∀ (t : SignedToken) (u : String) (r : UserRole) (i : String),
      t.payload.tokenId = oldTokenId →
      verifyAccessToken (some t) accessSecret verifyNow
        (refresh userId role oldTokenId newTokenId refreshTokenId deviceInfo
          ipAddress now accessSecret refreshSecret st).2 ≠ .success u r i)
    ∧ (∀ t : SignedToken, t.payload.tokenId = oldTokenId →
      t.secret = accessSecret → verifyNow < t.exp →
      t.payload.type = .access → st.failed = false →
      verifyAccessToken (some t) accessSecret verifyNow
        (refresh userId role oldTokenId newTokenId refreshTokenId deviceInfo
          ipAddress now accessSecret refreshSecret st).2
      = .rejected (unauthorizedError "Token has been invalidated"))
    ∧ (st.failed = false → st.blacklist newTokenId = none →
      newTokenId ≠ oldTokenId → verifyNow < now + ACCESS_TOKEN_EXPIRY →
      verifyAccessToken
        (some (refresh userId role oldTokenId newTokenId refreshTokenId
          deviceInfo ipAddress now accessSecret refreshSecret st).1.1)
        accessSecret verifyNow
        (refresh userId role oldTokenId newTokenId refreshTokenId deviceInfo
          ipAddress now accessSecret refreshSecret st).2
      = .success userId role newTokenId) := by
  refine ⟨?_, ?_, ?_⟩
  · intro t u r i htid hsucc
    cases hv : jwtVerify t accessSecret verifyNow with
    | error e => cases e <;> simp [verifyAccessToken, hv] at hsucc
    | ok decoded =>
      have hd := jwtVerify_ok_payload hv
      subst hd
      by_cases htype : t.payload.type = TokenType.access
      · cases hfail : st.failed <;>
          simp [verifyAccessToken, hv, htype, htid, isTokenBlacklistedE,
            refresh_failed, refresh_blacklist, hfail] at hsucc
      · simp [verifyAccessToken, hv, htype] at hsucc
  · intro t htid hsecret hexp htype hfail
    have hv : jwtVerify t accessSecret verifyNow = .ok t.payload := by
      unfold jwtVerify
      rw [if_neg (by simp [hsecret]), if_neg (Nat.not_le.mpr hexp)]
    simp [verifyAccessToken, hv, htype, htid, isTokenBlacklistedE,
      refresh_failed, hfail, refresh_blacklist]
  · intro hfail hbl hne hlt
    simp [verifyAccessToken, generateAccessToken, jwtSign, jwtVerify, refresh,
      Nat.not_le.mpr hlt, isTokenBlacklistedE, refresh_failed, hfail,
      refresh_blacklist, hne, hbl, storeUserSession, storeRefreshToken,
      blacklistToken]

/-- C3 witness: a concrete rotation of `t1` into `t2` — the old access
token is rejected as invalidated, and the newly issued access token
authorizes as `("u", user, "t2")`. -/
theorem C3_rotation_revokes_old_authorizes_new_witness :
    verifyAccessToken (some (generateAccessToken "u" .user "t1" "s1" 0)) "s1"
        10 (refresh "u" .user "t1" "t2" "r2" "d" "ip" 5 "s1" "s2"
          emptyStore).2
      = .rejected (unauthorizedError "Token has been invalidated")
    ∧ verifyAccessToken
        (some (refresh "u" .user "t1" "t2" "r2" "d" "ip" 5 "s1" "s2"
          emptyStore).1.1) "s1" 10
        (refresh "u" .user "t1" "t2" "r2" "d" "ip" 5 "s1" "s2" emptyStore).2
      = .success "u" .user "t2" := by
  have h := C3_rotation_revokes_old_authorizes_new "u" .user "t1" "t2" "r2"
    "d" "ip" 5 10 "s1" "s2" emptyStore
  exact ⟨h.2.1 (generateAccessToken "u" .user "t1" "s1" 0) rfl rfl (by decide)
      rfl rfl,
    h.2.2 rfl rfl (by decide) (by decide)⟩

end KycAuth
